import Mathlib

/-!
Verification of the SSE chat-proxy repository (`samuelxiong88/llm-chat-app-template`).

The development shallowly embeds the stream-translation pipeline of
`src/src/index.ts` (the canonical streaming variant) and the accumulator
variant of `src/unnamed/part_000` (`handleChat` and its `pull` decoder),
and proves or refutes the frozen specification claims about them.
-/

namespace LlmProxy

/-! ## String helpers (JS primitives used by the source) -/

/-- Substring test on character lists: models JS `String.prototype.includes`
and the literal-substring regexes used by the source (`/unsupported/`,
`/tool_call\.started/i`, ...). -/
def hasSubstr (pat : List Char) : List Char → Bool
  | [] => pat.isEmpty
  | c :: rest => pat.isPrefixOf (c :: rest) || hasSubstr pat rest

/-- `containsStr s pat` : does `s` contain `pat` as a substring. -/
def containsStr (s pat : String) : Bool := hasSubstr pat.data s.data

/-- JS `s.endsWith(pat)`. -/
def endsWithStr (s pat : String) : Bool := pat.data.isSuffixOf s.data

/-- JS `s.startsWith(pat)`. -/
def startsWithStr (s pat : String) : Bool := pat.data.isPrefixOf s.data

/-- JS `s.toLowerCase()` on the ASCII alphabet (character-wise lowering). -/
def jsToLower (s : String) : String := ⟨s.data.map Char.toLower⟩

/-- Models JS `s.slice(0, n)` (truncation used for dump/error snippets). -/
def sliceStr (s : String) (n : Nat) : String := ⟨s.data.take n⟩

/-- JS `a || b` on strings: `b` when `a` is the empty string. -/
def jsOr (a b : String) : String := if a = "" then b else a

/-- Concatenation of a list of strings, in order. -/
def concatAll : List String → String
  | [] => ""
  | a :: l => a ++ concatAll l

/-! ## Outgoing frames

`sseData(o)` frames are chat-completion chunks
`id/object/choices[0].{delta.{content?,role?}, finish_reason}`; `sseDone()` is
the literal `data: [DONE]` frame (`src/src/index.ts` lines 29-34). -/

/-- One outgoing SSE frame: either a chat-completion chunk (with its `id`,
`delta.content`, `delta.role` and `finish_reason` fields) or the
`data: [DONE]` marker. -/
inductive OutFrame where
  | chunk (id : String) (content : Option String) (role : Option String) (finish : Option String)
  | doneMark
deriving DecidableEq

/-- A text-delta chunk as built by `pushDelta` (index.ts lines 262-273). -/
def deltaFrame (t : String) : OutFrame := .chunk "cmpl-chunk" (some t) none none

/-- The terminal chunk built by `pushStop` (index.ts lines 274-281);
every call site uses the default reason `"stop"`. -/
def stopFrame : OutFrame := .chunk "cmpl-stop" none none (some "stop")

/-- The initial role-only chunk (index.ts lines 224-230). -/
def startFrame : OutFrame := .chunk "cmpl-start" none (some "assistant") none

/-- An error chunk (`id: "cmpl-error"`). -/
def errorFrame (t : String) : OutFrame := .chunk "cmpl-error" (some t) none none

/-- A `DEBUG_DUMP` raw-line chunk (index.ts lines 315-330). -/
def dumpFrame (n : Nat) (raw : String) : OutFrame :=
  .chunk "cmpl-dump" (some ("（RAW#" ++ toString n ++ "）" ++ sliceStr raw 300)) none none

/-- `pushStop` enqueues the terminal chunk and then `sseDone()`
(index.ts lines 274-283). -/
def pushStopFrames : List OutFrame := [stopFrame, OutFrame.doneMark]

/-- Is this frame a terminal chunk (a chunk carrying a `finish_reason`)? -/
def isStopChunk : OutFrame → Bool
  | .chunk _ _ _ (some _) => true
  | _ => false

/-- Number of terminal ("stop") chunks in a frame list. -/
def stopCount (fs : List OutFrame) : Nat := fs.countP isStopChunk

/-- Is this frame a `pushDelta`-style chunk (`id: "cmpl-chunk"`)? -/
def isCmplChunk : OutFrame → Bool
  | .chunk id _ _ _ => id == "cmpl-chunk"
  | _ => false

/-! ## Upstream events as seen by `readUpstream` (index.ts lines 286-400)

A decoded upstream `data:` payload is either the `[DONE]` sentinel, JSON that
parses, or a non-JSON line.  Of a parsed object the code reads only
`type`, `event`, `delta`, `text`, `content`,
`output_text.content[0].text`, `done`, `status`, plus the
`/web_search/.test(JSON.stringify(obj))` probe; `UpObj` records exactly those
projections (`none` = field absent or not a string). -/

structure UpObj where
  type? : Option String := none
  event? : Option String := none
  delta? : Option String := none
  text? : Option String := none
  content? : Option String := none
  outputText? : Option String := none
  done? : Option Bool := none
  status? : Option String := none
  webSearchInJson : Bool := false
deriving DecidableEq

/-- One trimmed upstream line as dispatched by the loop body
(index.ts lines 302-312): an `event:` line, a `data:` line whose payload is
`[DONE]` / parses as JSON / fails to parse, or any other (ignored) line —
blank lines included. -/
inductive RawLine where
  | event (name : String)
  | dataDone
  | dataJson (raw : String) (o : UpObj)
  | dataBad (raw : String)
  | other
deriving DecidableEq

/-- Classification outcome of one parsed object (the if-chain of
index.ts lines 340-393). -/
inductive EvClass where
  | textDelta (t : String)
  | toolStart
  | toolDone
  | progress
  | completion
  | unknown (ty : String)
deriving DecidableEq

/-- The event classifier of index.ts lines 340-388:
`type = obj?.type || lastEvent || obj?.event || ""`, then the ordered
delta / tool-started / tool-completed / progress / completion tests.
The regexes are literal-substring tests, written out disjunct by disjunct. -/
def classify (lastEvent : String) (o : UpObj) : EvClass :=
  let type := jsOr (o.type?.getD "") (jsOr lastEvent (o.event?.getD ""))
  let tLower := jsToLower type
  if endsWithStr type ".delta" || type == "response.delta" || o.delta?.isSome then
    EvClass.textDelta (o.delta?.getD (o.text?.getD (o.content?.getD (o.outputText?.getD ""))))
  else if containsStr tLower "tool_call.started" || containsStr tLower "tool_call.created" ||
      containsStr tLower "tool.started" || containsStr tLower "tool.created" ||
      o.webSearchInJson then
    EvClass.toolStart
  else if containsStr tLower "tool_call.completed" || containsStr tLower "tool_call.finish" ||
      containsStr tLower "tool_call.finished" || containsStr tLower "tool.completed" ||
      containsStr tLower "tool.finish" || containsStr tLower "tool.finished" then
    EvClass.toolDone
  else if containsStr tLower "progress" || containsStr tLower "working" ||
      containsStr tLower "searching" || containsStr tLower "retrieving" then
    EvClass.progress
  else if endsWithStr type ".done" || type == "response.completed" || o.done? == some true ||
      o.status? == some "completed" then
    EvClass.completion
  else EvClass.unknown type

/-- Mutable state of one `readUpstream` run plus the surrounding
`gotFirstText` flag (index.ts lines 260, 289-292). -/
structure RUState where
  lastEvent : String := ""
  closed : Bool := false
  gotFirstText : Bool := false
  dumpCount : Nat := 0
deriving DecidableEq

def initState : RUState := {}

/-- Processing of a single decoded line (index.ts lines 302-397):
`event:` updates `lastEvent`; `data: [DONE]` runs `pushStop` and closes;
other `data:` lines are optionally dumped (`DEBUG_DUMP`, first five) and then
classified; `pushDelta` drops empty text and sets `gotFirstText`. -/
def procLine (dbgDump dbgEvents : Bool) (s : RUState) (l : RawLine) :
    RUState × List OutFrame :=
  match l with
  | .event name => ({ s with lastEvent := name }, [])
  | .other => (s, [])
  | .dataDone => ({ s with closed := true }, pushStopFrames)
  | .dataBad raw =>
      ({ s with dumpCount := if dbgDump && s.dumpCount < 5 then s.dumpCount + 1 else s.dumpCount },
       if dbgDump && s.dumpCount < 5 then [dumpFrame (s.dumpCount + 1) raw] else [])
  | .dataJson raw o =>
      let doDump := dbgDump && s.dumpCount < 5
      let s1 : RUState := { s with dumpCount := if doDump then s.dumpCount + 1 else s.dumpCount }
      let dumps := if doDump then [dumpFrame (s.dumpCount + 1) raw] else []
      match classify s.lastEvent o with
      | .textDelta t =>
          if t ≠ "" then ({ s1 with gotFirstText := true }, dumps ++ [deltaFrame t])
          else (s1, dumps)
      | .toolStart =>
          ({ s1 with gotFirstText := true }, dumps ++ [deltaFrame "🔎 正在联网检索…"])
      | .toolDone =>
          ({ s1 with gotFirstText := true }, dumps ++ [deltaFrame "📄 已获取结果，正在整合…"])
      | .progress =>
          ({ s1 with gotFirstText := true }, dumps ++ [deltaFrame "（检索进行中…）"])
      | .completion => ({ s1 with closed := true }, dumps ++ pushStopFrames)
      | .unknown ty =>
          if dbgEvents && ty ≠ "" then
            ({ s1 with gotFirstText := true }, dumps ++ [deltaFrame ("（事件：" ++ ty ++ "）")])
          else (s1, dumps)

/-- `readUpstream` over the sequence of decoded lines: processes lines in
order and stops as soon as `closed` is set (the `break`s of index.ts
lines 335, 387, 398). -/
def readUpstream (dbgDump dbgEvents : Bool) : RUState → List RawLine → RUState × List OutFrame
  | s, [] => (s, [])
  | s, l :: ls =>
      if s.closed then (s, [])
      else
        let p := procLine dbgDump dbgEvents s l
        let q := readUpstream dbgDump dbgEvents p.1 ls
        (q.1, p.2 ++ q.2)

/-- The caller's finalization (index.ts lines 569-572): after `readUpstream`
returns, `pushStop` runs once more iff `gotFirstText` is still false. -/
def finalizeFrames (s : RUState) : List OutFrame :=
  if s.gotFirstText then [] else pushStopFrames

/-- Frames a connection emits for one successfully-opened upstream stream:
the `readUpstream` output followed by the finalization. -/
def readAndFinalize (dbgDump dbgEvents : Bool) (ls : List RawLine) : List OutFrame :=
  let p := readUpstream dbgDump dbgEvents initState ls
  p.2 ++ finalizeFrames p.1

/-! ## Request payloads and the resilience controller
(index.ts lines 162-218, 402-469, 493-561) -/

/-- A chat message (`type Msg`, index.ts line 164). -/
structure ChatMsg where
  role : String
  content : String
deriving DecidableEq

/-- The outbound JSON body to the `/responses` endpoint; `none` = field
absent.  `tools` holds the single tool type string of index.ts line 216,
`reasoning` the effort value of line 213. -/
structure Payload where
  model : String
  input : List ChatMsg
  stream : Bool
  max_output_tokens : Int
  seed : Option Int
  temperature : Option ℚ
  top_p : Option ℚ
  reasoning : Option String
  tools : Option String
  tool_choice : Option String
deriving DecidableEq

/-- The tool-model allowlist (index.ts lines 71-77). -/
def TOOL_MODELS : List String :=
  ["gpt-4o", "gpt-4o-2024-11-20", "gpt-4o-mini", "gpt-4.1", "gpt-4.1-mini"]

/-- `/thinking/i.test(model)` (index.ts line 186). -/
def isThinking (model : String) : Bool := containsStr (jsToLower model) "thinking"

/-- Per-request configuration after query/env resolution (index.ts
lines 180-199): the resolved model, messages, numeric parameters
(`seed = none` models `undefined` or `NaN`) and the tools-enable flag. -/
structure Cfg where
  model : String
  messages : List ChatMsg
  max_output_tokens : Int
  seed : Option Int
  temperature : ℚ
  top_p : ℚ
  enableTools : Bool
deriving DecidableEq

/-- `basePayload` construction (index.ts lines 202-218): sampling fields for
non-"thinking" models, `reasoning.effort = "medium"` otherwise; tools only
when enabled and the model is allowlisted. -/
def basePayload (c : Cfg) : Payload :=
  let supportsSampling := !isThinking c.model
  { model := c.model
    input := c.messages
    stream := true
    max_output_tokens := c.max_output_tokens
    seed := c.seed
    temperature := if supportsSampling then some c.temperature else none
    top_p := if supportsSampling then some c.top_p else none
    reasoning := if supportsSampling then none else some "medium"
    tools := if c.enableTools && TOOL_MODELS.contains c.model then
        some "web_search_preview_2025_03_11" else none
    tool_choice := if c.enableTools && TOOL_MODELS.contains c.model then
        some "auto" else none }

/-- The rebuilt payload of the single 400-retry (index.ts lines 441-442):
only `model`, `input`, `stream`, `max_output_tokens` and (when valid)
`seed` survive. -/
def retryPayload (c : Cfg) : Payload :=
  { model := c.model
    input := c.messages
    stream := true
    max_output_tokens := c.max_output_tokens
    seed := c.seed
    temperature := none
    top_p := none
    reasoning := none
    tools := none
    tool_choice := none }

/-- The non-streaming fallback payload of the first-packet watchdog
(index.ts lines 499-505). -/
def fallbackPayload (c : Cfg) : Payload :=
  { model := c.model
    input := c.messages
    stream := false
    max_output_tokens := c.max_output_tokens
    seed := c.seed
    temperature := none
    top_p := none
    reasoning := none
    tools := none
    tool_choice := none }

/-- JS `Response.ok`: status in `[200, 300)`. -/
def upstreamOk (status : Nat) : Bool := decide (200 ≤ status) && decide (status < 300)

/-- The tools-rejection body patterns (index.ts lines 424-430); every regex
is a literal substring test on the lowercased body. -/
def toolsProblem (status : Nat) (lower : String) : Bool :=
  status == 400 &&
  ((containsStr lower "invalid_value" && containsStr lower "tools") ||
   (containsStr lower "not supported with" && containsStr lower "tool") ||
   (containsStr lower "unsupported" && containsStr lower "tool") ||
   containsStr lower "unknown tool" ||
   (containsStr lower "param" && containsStr lower "tools"))

/-- The unsupported-sampling body pattern (index.ts lines 431-434). -/
def badSampling (status : Nat) (lower : String) : Bool :=
  status == 400 && containsStr lower "unsupported" &&
  (containsStr lower "temperature" || containsStr lower "top_p")

/-- The unsupported-reasoning body pattern (index.ts lines 435-438). -/
def badReasoning (status : Nat) (lower : String) : Bool :=
  status == 400 && containsStr lower "unsupported" && containsStr lower "reasoning.effort"

/-- Outcome of inspecting the first upstream response. -/
inductive Decision where
  | proceed
  | retryOnce (p : Payload)
  | errorOut (msg : String)
deriving DecidableEq

/-- The first-response handling of index.ts lines 421-468: an OK response
proceeds; a response matching a known unsupported-field pattern is retried
exactly once with the stripped payload; anything else becomes an error
chunk. -/
def afterFirst (c : Cfg) (status : Nat) (body : String) : Decision :=
  if upstreamOk status then .proceed
  else
    let lower := jsToLower body
    if toolsProblem status lower || badSampling status lower || badReasoning status lower then
      .retryOnce (retryPayload c)
    else
      .errorOut ("⚠️ Upstream " ++ toString status ++ ": " ++ sliceStr body 800)

/-- The upstream request bodies a connection attempts, in order: the base
payload, plus the one retry body when the first response matched a
retryable pattern.  There is no loop in the source, so never more. -/
def issuedPayloads (c : Cfg) (status : Nat) (body : String) : List Payload :=
  basePayload c ::
    (match afterFirst c status body with
     | .retryOnce p => [p]
     | _ => [])

/-! ## First-packet watchdog fallback (index.ts lines 493-561) -/

/-- The non-streaming fallback response: HTTP ok flag, raw body text, and
the extracted text (`j?.output_text?.[0]?.content?.[0]?.text ||
j?.output?.[0]?.content?.[0]?.text || j?.choices?.[0]?.message?.content ||
""`); `parsedOut = none` models a JSON parse failure, `some ""` an object
in which every probed field is missing/empty. -/
structure FbResp where
  ok : Bool
  text : String
  parsedOut : Option String
deriving DecidableEq

/-- `out` of index.ts lines 539-548: the parsed text when nonempty,
otherwise the body truncated to 2000 characters. -/
def fallbackOut (r : FbResp) : String :=
  match r.parsedOut with
  | some s => if s ≠ "" then s else sliceStr r.text 2000
  | none => sliceStr r.text 2000

/-- The `firstPacketTimer` callback (index.ts lines 495-561).  Returns
whether the streaming call was aborted, and the frames enqueued: nothing
when `gotFirstText` is already set; otherwise the fallback result as one
chunk (or an error chunk) followed by `pushStop`. -/
def firstPacketFire (gotFirstText : Bool) (r : FbResp) : Bool × List OutFrame :=
  if gotFirstText then (false, [])
  else if !r.ok || r.text == "" then
    (true, errorFrame ("（非流式回退失败）" ++ sliceStr r.text 600) :: pushStopFrames)
  else
    (true, deltaFrame (fallbackOut r) :: pushStopFrames)

/-- The heartbeat tick body (index.ts lines 241-258): it enqueues a notice
chunk directly on the controller — it neither uses `pushDelta` nor touches
`gotFirstText` (it only refreshes `lastTextTs`, which is not part of the
modelled state). -/
def heartbeatTick (s : RUState) : RUState × OutFrame :=
  (s, deltaFrame "（仍在检索与整合，请稍候…）")

/-! ## The connection trace (index.ts lines 221-611) -/

/-- One observable step of the orchestrator: enqueue a frame to the client
or issue an upstream request. -/
inductive Action where
  | emit (f : OutFrame)
  | request (p : Payload)
deriving DecidableEq

/-- An upstream streaming response: HTTP status, whether a body stream is
present, the error body text, and the decoded lines of the body stream. -/
structure UpResp where
  status : Nat
  hasBody : Bool
  body : String
  lines : List RawLine
deriving DecidableEq

/-- Continuation after the chosen response (index.ts lines 471-573): the
`!upstream.ok || !upstream.body` guard emits an error chunk plus
`pushStop`; otherwise the body stream is read and finalized. -/
def contStream (dbgDump dbgEvents : Bool) (r : UpResp) : List Action :=
  if !upstreamOk r.status || !r.hasBody then
    (errorFrame ("⚠️ Upstream error: " ++ sliceStr r.body 800) :: pushStopFrames).map Action.emit
  else
    (readAndFinalize dbgDump dbgEvents r.lines).map Action.emit

/-- The whole `/api/chat` SSE connection as a trace: the start chunk is
enqueued synchronously in `start(controller)` (index.ts lines 224-230),
then the async task issues the base request and proceeds per `afterFirst`.
`first` is the first upstream response; `second` the retry response (used
only on the retry path). -/
def chatTrace (dbgDump dbgEvents : Bool) (c : Cfg) (first second : UpResp) : List Action :=
  Action.emit startFrame ::
  Action.request (basePayload c) ::
  (match afterFirst c first.status first.body with
   | .proceed => contStream dbgDump dbgEvents first
   | .retryOnce p => Action.request p :: contStream dbgDump dbgEvents second
   | .errorOut m => (errorFrame m :: pushStopFrames).map Action.emit)

/-- The frames emitted along a trace. -/
def emitsOf (as : List Action) : List OutFrame :=
  as.filterMap (fun a => match a with | .emit f => some f | _ => none)

/-! ## The byte-stream line decoder of `readUpstream`
(index.ts lines 294-300): `buffer += chunk; lines = buffer.split("\n");
buffer = lines.pop()`.  Characters are handled as `List Char`. -/

/-- `extractLines s` = the complete (newline-terminated) lines of `s`, in
order, together with the unterminated remainder — exactly
`s.split("\n")` with the last element popped back into the buffer. -/
def extractLines : List Char → List (List Char) × List Char
  | [] => ([], [])
  | c :: cs =>
      let r := extractLines cs
      if c = '\n' then ([] :: r.1, r.2)
      else
        match r with
        | ([], rest) => ([], c :: rest)
        | (l :: ls, rest) => ((c :: l) :: ls, rest)

/-- Feeding successive byte deliveries through the buffering loop: each
delivery is appended to the carried buffer, the complete lines are
extracted, and the remainder is carried to the next delivery. -/
def feedAll : List Char → List (List Char) → List (List Char) × List Char
  | buf, [] => ([], buf)
  | buf, c :: cs =>
      let r := extractLines (buf ++ c)
      let r' := feedAll r.2 cs
      (r.1 ++ r'.1, r'.2)

/-! ## The accumulator variant (`src/unnamed/part_000`, lines 745-958) -/

/-- `modelSupportsTemperature` (part_000 lines 759-762). -/
def modelSupportsTemperature (model : String) : Bool :=
  let m := jsToLower model
  !(startsWithStr m "gpt-5" || containsStr m "realtime" || containsStr m "audio")

/-- part_000's `SYSTEM_PROMPT` (lines 756-757). -/
def P_SYSTEM_PROMPT : String :=
  "You are a helpful, friendly assistant. Provide concise and accurate responses."

/-- part_000's outbound chat-completions payload (line 841-842). -/
structure PPayload where
  model : String
  messages : List ChatMsg
  stream : Bool
  temperature : Option ℚ
deriving DecidableEq

/-- A response from `handleChat`: a `jsonResponse(...)` error, the raw
passthrough of the debug/non-streaming path, or the SSE stream over the
upstream body (carrying the upstream byte chunks it will decode). -/
inductive HCResp where
  | jsonR (status : Nat) (errMsg : String)
  | raw (status : Nat) (body : String)
  | sse (chunks : List (List Char))
deriving DecidableEq

/-- An upstream response as seen by `handleChat`'s streaming path. -/
structure PUpResp where
  status : Nat
  hasBody : Bool
  text : String
  chunks : List (List Char)
deriving DecidableEq

/-- `handleChat` (part_000 lines 823-868): a JSON body-parse failure
(`body? = none`) returns `jsonResponse({error:"Invalid JSON body"}, 400)`
before anything else; otherwise the messages are normalized (system prompt
prepended when missing), the payload built (`temperature` only when the
model supports it), and either the raw debug response or the SSE stream is
returned. -/
def handleChat (body? : Option (List ChatMsg)) (debugJson : Bool) (model : String)
    (debugUp : Nat × String) (streamUp : PUpResp) : HCResp :=
  match body? with
  | none => .jsonR 400 "Invalid JSON body"
  | some msgs =>
      let messages :=
        if msgs.any (fun m => m.role == "system") then msgs
        else ⟨"system", P_SYSTEM_PROMPT⟩ :: msgs
      let _payload : PPayload :=
        { model := model
          messages := messages
          stream := !debugJson
          temperature := if modelSupportsTemperature model then some (2 / 10 : ℚ) else none }
      if debugJson then .raw debugUp.1 debugUp.2
      else if !upstreamOk streamUp.status || !streamUp.hasBody then
        .jsonR streamUp.status "OpenAI upstream error"
      else .sse streamUp.chunks

/-- Is the response an opened SSE stream? -/
def HCResp.isStream : HCResp → Bool
  | .sse _ => true
  | _ => false

/-! ### The `pull` decoder's end-of-stream flush (part_000 lines 878-948) -/

/-- Frames of part_000's outgoing protocol:
`data: {"response": <text>, "done": false}` or `data: {"done": true}`. -/
inductive OutMsg where
  | resp (text : List Char)
  | finished
deriving DecidableEq

/-- JS whitespace for `trim` / `replace(/^\s+/, "")` on the characters
appearing here. -/
def wsChar (c : Char) : Bool := c.isWhitespace

/-- JS `String.prototype.trim` over `List Char`. -/
def trimL (s : List Char) : List Char :=
  ((s.dropWhile wsChar).reverse.dropWhile wsChar).reverse

def dataTagChars : List Char := "data:".data

def doneLitChars : List Char := "[DONE]".data

/-- The mutable state of one `pull` stream (part_000 lines 874-876):
the carry-over `buffer`, the accumulated full text `acc`, and the
`sentAny` leading-whitespace flag. -/
structure PullState where
  buffer : List Char
  acc : List Char
  sentAny : Bool
deriving DecidableEq

/-- The `done` branch of `pull` (part_000 lines 882-901): the end-of-stream
flush.  `tail = buffer.trim()`; a trailing `data:` line that is not
`[DONE]` is parsed and its delta content appended to `acc` (blank content
ignored); then the leading-whitespace strip, the final cumulative
`response` frame (when nonempty), and the `done: true` frame.
`extractContent` stands for `JSON.parse` followed by the
`j?.choices?.[0]?.delta?.content` string probe (`none` = parse failure or
content not a string). -/
def pullFinish (extractContent : List Char → Option (List Char)) (st : PullState) :
    List OutMsg :=
  let tail := trimL st.buffer
  let acc1 :=
    if dataTagChars.isPrefixOf tail then
      let payload := trimL (tail.drop 5)
      if payload ≠ doneLitChars then
        match extractContent payload with
        | some chunk => if trimL chunk ≠ [] then st.acc ++ chunk else st.acc
        | none => st.acc
      else st.acc
    else st.acc
  let acc2 := if !st.sentAny && !acc1.isEmpty then acc1.dropWhile wsChar else acc1
  (if acc2.isEmpty then [] else [OutMsg.resp acc2]) ++ [OutMsg.finished]

/-! ## Specific event families used by the claims -/

/-- A pure text-delta frame carrying delta string `d` (its raw payload is
irrelevant to processing; it only feeds the optional debug dump). -/
def deltaLine (d : String) : RawLine := RawLine.dataJson d { delta? := some d }

/-- The tool-call-started event (`type: "tool_call.started"`). -/
def toolStartLine : RawLine := RawLine.dataJson "toolstart" { type? := some "tool_call.started" }

/-- The user-visible "searching" notice text (index.ts line 366). -/
def searchNotice : String := "🔎 正在联网检索…"

/-- Contents of the `pushDelta`-emitted chunks (`id: "cmpl-chunk"`), in
emission order. -/
def cmplChunkContents (fs : List OutFrame) : List String :=
  fs.filterMap (fun f => match f with
    | OutFrame.chunk id (some c) _ _ => if id == "cmpl-chunk" then some c else none
    | _ => none)

/-- Number of emitted "searching" notice chunks. -/
def searchingCount (fs : List OutFrame) : Nat :=
  fs.countP (fun f => match f with
    | OutFrame.chunk id (some c) _ _ => id == "cmpl-chunk" && c == searchNotice
    | _ => false)

/-! ## Concrete inputs used by counterexamples and witnesses -/

/-- A plain request configuration (no tools). -/
def cxCfg : Cfg :=
  { model := "gpt-4o"
    messages := [{ role := "user", content := "2+2?" }]
    max_output_tokens := 1024
    seed := none
    temperature := 7 / 10
    top_p := 1
    enableTools := false }

/-- A request configuration with native tools enabled for an allowlisted
model, so the base payload carries `tools`/`tool_choice`. -/
def cxToolsCfg : Cfg :=
  { model := "gpt-4o"
    messages := [{ role := "user", content := "hi" }]
    max_output_tokens := 1024
    seed := none
    temperature := 7 / 10
    top_p := 1
    enableTools := true }

/-- A 200 upstream response whose body stream carries a single text delta
`"hi"` and then ends — with no completion signal. -/
def cxOkResp : UpResp :=
  { status := 200, hasBody := true, body := "", lines := [deltaLine "hi"] }

/-- Well-shaped frame sequences: every chunk carrying a `finish_reason` is
the literal `stopFrame` and is immediately followed by the `[DONE]` marker,
and the `[DONE]` marker occurs nowhere else. -/
inductive EmitsOk : List OutFrame → Prop
  | nil : EmitsOk []
  | push (id : String) (c r : Option String) {l : List OutFrame}
      (h : EmitsOk l) : EmitsOk (OutFrame.chunk id c r none :: l)
  | stop {l : List OutFrame} (h : EmitsOk l) :
      EmitsOk (stopFrame :: OutFrame.doneMark :: l)

/-! ## Structural lemmas about the emitted frames -/

@[simp] theorem isStopChunk_deltaFrame (t : String) : isStopChunk (deltaFrame t) = false := rfl

@[simp] theorem isStopChunk_dumpFrame (n : Nat) (r : String) :
    isStopChunk (dumpFrame n r) = false := rfl

@[simp] theorem isStopChunk_stopFrame : isStopChunk stopFrame = true := rfl

@[simp] theorem isStopChunk_doneMark : isStopChunk OutFrame.doneMark = false := rfl

@[simp] theorem isCmplChunk_deltaFrame (t : String) : isCmplChunk (deltaFrame t) = true := rfl

@[simp] theorem isCmplChunk_dumpFrame (n : Nat) (r : String) :
    isCmplChunk (dumpFrame n r) = false := rfl

@[simp] theorem isCmplChunk_stopFrame : isCmplChunk stopFrame = false := rfl

@[simp] theorem isCmplChunk_doneMark : isCmplChunk OutFrame.doneMark = false := rfl

@[simp] theorem stopCount_nil : stopCount [] = 0 := rfl

@[simp] theorem stopCount_cons (f : OutFrame) (fs : List OutFrame) :
    stopCount (f :: fs) = stopCount fs + (if isStopChunk f then 1 else 0) := by
  simp [stopCount, List.countP_cons]

@[simp] theorem stopCount_append (a b : List OutFrame) :
    stopCount (a ++ b) = stopCount a + stopCount b := by
  simp [stopCount, List.countP_append]

@[simp] theorem stopCount_pushStopFrames : stopCount pushStopFrames = 1 := rfl

theorem EmitsOk.append {a b : List OutFrame} (ha : EmitsOk a) (hb : EmitsOk b) :
    EmitsOk (a ++ b) := by
  induction ha with
  | nil => exact hb
  | push id c r _ ih => exact .push id c r ih
  | stop _ ih => exact .stop ih

theorem EmitsOk.deltaSingle (t : String) : EmitsOk [deltaFrame t] :=
  .push _ _ _ .nil

theorem EmitsOk.dumpSingle (n : Nat) (r : String) : EmitsOk [dumpFrame n r] :=
  .push _ _ _ .nil

theorem EmitsOk.pushStop : EmitsOk pushStopFrames := .stop .nil

theorem EmitsOk.ite_dump (p : Prop) [Decidable p] (n : Nat) (r : String) :
    EmitsOk (if p then [dumpFrame n r] else []) := by
  split
  · exact .dumpSingle n r
  · exact .nil

/-! ## Per-line and whole-stream invariants of `readUpstream` -/

theorem procLine_emits (dbgDump dbgEvents : Bool) (s : RUState) (l : RawLine) :
    EmitsOk (procLine dbgDump dbgEvents s l).2 := by
  cases l with
  | event name => exact .nil
  | other => exact .nil
  | dataDone => exact .pushStop
  | dataBad raw =>
      show EmitsOk (if _ then [dumpFrame _ _] else [])
      exact EmitsOk.ite_dump _ _ _
  | dataJson raw o =>
      simp only [procLine]
      repeat' split
      all_goals dsimp only
      all_goals
        first
          | exact .nil
          | exact .deltaSingle _
          | exact .pushStop
          | exact .dumpSingle _ _
          | exact .push _ _ _ (.deltaSingle _)
          | exact .push _ _ _ .pushStop

theorem stopCount_ite_dump (p : Prop) [Decidable p] (n : Nat) (r : String) :
    stopCount (if p then [dumpFrame n r] else []) = 0 := by
  split <;> simp

theorem procLine_stopCount (dbgDump dbgEvents : Bool) (s : RUState) (l : RawLine)
    (h : s.closed = false) :
    stopCount (procLine dbgDump dbgEvents s l).2 =
      (if (procLine dbgDump dbgEvents s l).1.closed then 1 else 0) := by
  cases l with
  | event name => simp [procLine, h]
  | other => simp [procLine, h]
  | dataDone => simp [procLine, pushStopFrames]
  | dataBad raw => simp [procLine, stopCount_ite_dump, h]
  | dataJson raw o =>
      simp only [procLine]
      repeat' split
      all_goals simp_all [stopCount_ite_dump, pushStopFrames]

theorem any_ite_dump (p : Prop) [Decidable p] (n : Nat) (r : String) :
    (if p then [dumpFrame n r] else []).any isCmplChunk = false := by
  split <;> simp

theorem procLine_got (dbgDump dbgEvents : Bool) (s : RUState) (l : RawLine) :
    (procLine dbgDump dbgEvents s l).1.gotFirstText =
      (s.gotFirstText || (procLine dbgDump dbgEvents s l).2.any isCmplChunk) := by
  cases l with
  | event name => simp [procLine]
  | other => simp [procLine]
  | dataDone => simp [procLine, pushStopFrames]
  | dataBad raw => simp [procLine, any_ite_dump]
  | dataJson raw o =>
      simp only [procLine]
      repeat' split
      all_goals simp_all [any_ite_dump, pushStopFrames]

theorem readUpstream_closedState (dbgDump dbgEvents : Bool) (s : RUState)
    (ls : List RawLine) (h : s.closed = true) :
    readUpstream dbgDump dbgEvents s ls = (s, []) := by
  cases ls <;> simp [readUpstream, h]

theorem readUpstream_emits (dbgDump dbgEvents : Bool) (ls : List RawLine) (s : RUState) :
    EmitsOk (readUpstream dbgDump dbgEvents s ls).2 := by
  induction ls generalizing s with
  | nil => exact .nil
  | cons l ls ih =>
      simp only [readUpstream]
      split
      · exact .nil
      · exact (procLine_emits dbgDump dbgEvents s l).append (ih _)

theorem readUpstream_stopCount (dbgDump dbgEvents : Bool) (ls : List RawLine) (s : RUState)
    (h : s.closed = false) :
    stopCount (readUpstream dbgDump dbgEvents s ls).2 =
      (if (readUpstream dbgDump dbgEvents s ls).1.closed then 1 else 0) := by
  induction ls generalizing s with
  | nil => simp [readUpstream, h]
  | cons l ls ih =>
      simp only [readUpstream]
      rw [if_neg (by simp [h])]
      by_cases hp : (procLine dbgDump dbgEvents s l).1.closed = true
      · rw [readUpstream_closedState dbgDump dbgEvents _ ls hp]
        dsimp only
        rw [List.append_nil, procLine_stopCount dbgDump dbgEvents s l h, hp]
      · have hc : (procLine dbgDump dbgEvents s l).1.closed = false := by
          simpa using hp
        dsimp only
        rw [stopCount_append, ih _ hc, procLine_stopCount dbgDump dbgEvents s l h, hc]
        simp

theorem readUpstream_got (dbgDump dbgEvents : Bool) (ls : List RawLine) (s : RUState) :
    (readUpstream dbgDump dbgEvents s ls).1.gotFirstText =
      (s.gotFirstText || (readUpstream dbgDump dbgEvents s ls).2.any isCmplChunk) := by
  induction ls generalizing s with
  | nil => simp [readUpstream]
  | cons l ls ih =>
      simp only [readUpstream]
      split
      · simp
      · rw [ih]
        simp [procLine_got dbgDump dbgEvents s l, Bool.or_assoc]

theorem finalizeFrames_emits (s : RUState) : EmitsOk (finalizeFrames s) := by
  unfold finalizeFrames
  split
  · exact .nil
  · exact .pushStop

theorem finalizeFrames_stopCount (s : RUState) :
    stopCount (finalizeFrames s) = if s.gotFirstText then 0 else 1 := by
  unfold finalizeFrames
  split <;> simp

@[simp] theorem cmplChunkContents_nil : cmplChunkContents [] = [] := rfl

@[simp] theorem cmplChunkContents_append (a b : List OutFrame) :
    cmplChunkContents (a ++ b) = cmplChunkContents a ++ cmplChunkContents b := by
  simp [cmplChunkContents]

@[simp] theorem cmplChunkContents_delta (t : String) :
    cmplChunkContents [deltaFrame t] = [t] := rfl

@[simp] theorem cmplChunkContents_ite_dump (p : Prop) [Decidable p] (n : Nat) (r : String) :
    cmplChunkContents (if p then [dumpFrame n r] else []) = [] := by
  split <;> rfl

@[simp] theorem searchingCount_nil : searchingCount [] = 0 := rfl

@[simp] theorem searchingCount_append (a b : List OutFrame) :
    searchingCount (a ++ b) = searchingCount a + searchingCount b := by
  simp [searchingCount, List.countP_append]

@[simp] theorem searchingCount_notice : searchingCount [deltaFrame searchNotice] = 1 := rfl

@[simp] theorem searchingCount_ite_dump (p : Prop) [Decidable p] (n : Nat) (r : String) :
    searchingCount (if p then [dumpFrame n r] else []) = 0 := by
  split <;> rfl

theorem classify_deltaObj (le : String) (d : String) :
    classify le { delta? := some d } = .textDelta d := by
  simp [classify]

theorem readUpstream_deltaLines (dbgDump dbgEvents : Bool) (ds : List String) :
    ∀ s : RUState, s.closed = false →
      cmplChunkContents (readUpstream dbgDump dbgEvents s (ds.map deltaLine)).2 =
        ds.filter (fun d => d ≠ "") := by
  induction ds with
  | nil =>
      intro s h
      simp [readUpstream]
  | cons d ds ih =>
      intro s h
      simp only [List.map_cons, readUpstream]
      rw [if_neg (by simp [h])]
      simp only [deltaLine, procLine, classify_deltaObj]
      by_cases hd : d = ""
      · subst hd
        simp only [ne_eq, not_true_eq_false, if_false]
        rw [cmplChunkContents_append, cmplChunkContents_ite_dump]
        rw [ih _ (by exact h)]
        simp
      · rw [if_pos (by exact hd)]
        dsimp only
        rw [cmplChunkContents_append, cmplChunkContents_append, cmplChunkContents_ite_dump,
          cmplChunkContents_delta, ih _ (by exact h)]
        simp [hd]

theorem empty_append_str (s : String) : "" ++ s = s := rfl

theorem concatAll_filter_ne (ds : List String) :
    concatAll (ds.filter (fun d => d ≠ "")) = concatAll ds := by
  induction ds with
  | nil => rfl
  | cons d ds ih =>
      simp only [ne_eq, decide_not] at ih ⊢
      by_cases hd : d = ""
      · subst hd
        simpa [concatAll, empty_append_str] using ih
      · simp [concatAll, List.filter_cons, hd, ih]

theorem classify_toolStartObj :
    classify "" { type? := some "tool_call.started" } = .toolStart := by decide

theorem procLine_toolStartLine (dbgDump dbgEvents : Bool) (s : RUState)
    (hle : s.lastEvent = "") :
    procLine dbgDump dbgEvents s toolStartLine =
      ({ s with
          gotFirstText := true
          dumpCount := if dbgDump && s.dumpCount < 5 then s.dumpCount + 1 else s.dumpCount },
        (if dbgDump && s.dumpCount < 5 then [dumpFrame (s.dumpCount + 1) "toolstart"] else []) ++
          [deltaFrame searchNotice]) := by
  have hcl : classify s.lastEvent { type? := some "tool_call.started" } = .toolStart := by
    rw [hle]; exact classify_toolStartObj
  simp only [toolStartLine, procLine, hcl]
  rfl

theorem readUpstream_toolStarts (dbgDump dbgEvents : Bool) (n : Nat) :
    ∀ s : RUState, s.closed = false → s.lastEvent = "" →
      searchingCount
        (readUpstream dbgDump dbgEvents s (List.replicate n toolStartLine)).2 = n := by
  induction n with
  | zero =>
      intro s h hle
      simp [readUpstream]
  | succ n ih =>
      intro s h hle
      simp only [List.replicate_succ, readUpstream]
      rw [if_neg (by simp [h])]
      rw [procLine_toolStartLine dbgDump dbgEvents s hle]
      dsimp only
      rw [searchingCount_append, searchingCount_append, searchingCount_ite_dump,
        searchingCount_notice, ih _ (by simpa using h) (by simpa using hle)]
      omega

/-! ## Lemmas for the byte decoders -/

theorem exists_not_ws (c : List Char) (hc : trimL c ≠ []) :
    ∃ x ∈ c, wsChar x = false := by
  by_contra hall
  push_neg at hall
  have h1 : c.dropWhile wsChar = [] := by
    rw [List.dropWhile_eq_nil_iff]
    intro x hx
    have h2 := hall x hx
    simpa using h2
  unfold trimL at hc
  rw [h1] at hc
  simp at hc

theorem dropWhile_ws_append_ne_nil (a c : List Char) (hc : trimL c ≠ []) :
    (a ++ c).dropWhile wsChar ≠ [] := by
  obtain ⟨x, hx, hfx⟩ := exists_not_ws c hc
  intro h
  rw [List.dropWhile_eq_nil_iff] at h
  have h2 := h x (List.mem_append_right a hx)
  rw [hfx] at h2
  exact Bool.false_ne_true h2

theorem ne_nil_of_trimL (c : List Char) (hc : trimL c ≠ []) : c ≠ [] := by
  intro h
  subst h
  exact hc rfl

theorem extractLines_noNL (s : List Char) (h : '\n' ∉ s) : extractLines s = ([], s) := by
  induction s with
  | nil => rfl
  | cons c cs ih =>
      have hc : ¬ c = '\n' := fun e => h (by simp [e])
      have hcs : '\n' ∉ cs := fun m => h (List.mem_cons_of_mem _ m)
      simp only [extractLines, ih hcs]
      rw [if_neg hc]

theorem noNL_extractLines_rem (s : List Char) : '\n' ∉ (extractLines s).2 := by
  induction s with
  | nil => simp [extractLines]
  | cons c cs ih =>
      simp only [extractLines]
      by_cases hc : c = '\n'
      · rw [if_pos hc]
        exact ih
      · rw [if_neg hc]
        cases hE : extractLines cs with
        | mk ls rest =>
            rw [hE] at ih
            cases ls with
            | nil =>
                intro hm
                rcases List.mem_cons.mp hm with h1 | h2
                · exact hc h1.symm
                · exact ih h2
            | cons l ls => exact ih

theorem extractLines_append (a b : List Char) :
    extractLines (a ++ b) =
      ((extractLines a).1 ++ (extractLines ((extractLines a).2 ++ b)).1,
       (extractLines ((extractLines a).2 ++ b)).2) := by
  induction a with
  | nil => simp [extractLines]
  | cons c cs ih =>
      simp only [List.cons_append, extractLines, List.append_eq]
      by_cases hc : c = '\n'
      · rw [if_pos hc, if_pos hc]
        rw [ih]
        simp
      · rw [if_neg hc, if_neg hc]
        cases hA : extractLines cs with
        | mk ls rest =>
            rw [hA] at ih
            rw [ih]
            cases ls with
            | nil =>
                simp only [List.nil_append]
                simp only [extractLines]
                rw [if_neg hc]
                cases hB : extractLines (rest ++ b) with
                | mk ls2 rest2 => cases ls2 <;> simp
            | cons l ls => simp

theorem feedAll_spec (chunks : List (List Char)) :
    ∀ buf : List Char, '\n' ∉ buf →
      feedAll buf chunks = extractLines (buf ++ chunks.flatten) := by
  induction chunks with
  | nil =>
      intro buf h
      simp [feedAll, extractLines_noNL buf h]
  | cons cdata cs ih =>
      intro buf h
      simp only [feedAll, List.flatten_cons]
      rw [ih _ (noNL_extractLines_rem (buf ++ cdata))]
      rw [← List.append_assoc, extractLines_append (buf ++ cdata) cs.flatten]

/-! ## Claim theorems -/

/-- C1 (corrected).  The claim "exactly one terminal stop chunk per
connection, immediately followed by exactly one `[DONE]`, with nothing
after" fails on the code: `readUpstream`'s caller re-runs `pushStop`
whenever `gotFirstText` is false (index.ts lines 569-572), so a stream
whose completion signal arrives with no prior text yields two stop/[DONE]
pairs, and a stream that delivered text but no completion signal yields no
stop chunk at all.  This counterexample exhibits the latter: a 200
connection whose upstream stream is one `"hi"` delta and then end-of-stream
emits no terminal chunk. -/
theorem c1_counterexample :
    stopCount (emitsOf (chatTrace false false cxCfg cxOkResp cxOkResp)) ≠ 1 := by
  decide

/-- C1 (amended).  For every upstream line sequence, every stop chunk the
connection emits is the literal `pushStop` pair — a stop chunk immediately
followed by one `[DONE]` marker, `[DONE]` appearing nowhere else — and the
number of stop chunks equals (1 if the stream reached a completion signal)
plus (1 if no `pushDelta` chunk was emitted).  Exactly one stop chunk is
therefore emitted iff exactly one of those two conditions holds. -/
theorem c1_amended (dbgDump dbgEvents : Bool) (ls : List RawLine) :
    EmitsOk (readAndFinalize dbgDump dbgEvents ls) ∧
    stopCount (readAndFinalize dbgDump dbgEvents ls) =
      (if (readUpstream dbgDump dbgEvents initState ls).1.closed then 1 else 0) +
      (if (readUpstream dbgDump dbgEvents initState ls).1.gotFirstText then 0 else 1) := by
  unfold readAndFinalize
  refine ⟨(readUpstream_emits dbgDump dbgEvents ls initState).append (finalizeFrames_emits _), ?_⟩
  rw [stopCount_append, readUpstream_stopCount dbgDump dbgEvents ls initState rfl,
    finalizeFrames_stopCount]

/-- C2 (confirmed).  For every sequence of upstream text-delta frames, the
`pushDelta` chunks `readUpstream` emits are exactly the nonempty deltas, in
order (no gap, no duplication, no reordering), so their concatenation
equals the concatenation of the upstream delta strings; empty deltas
contribute nothing. -/
theorem c2_delta_concat (dbgDump dbgEvents : Bool) (ds : List String) :
    cmplChunkContents (readUpstream dbgDump dbgEvents initState (ds.map deltaLine)).2 =
      ds.filter (fun d => d ≠ "") ∧
    concatAll
        (cmplChunkContents (readUpstream dbgDump dbgEvents initState (ds.map deltaLine)).2) =
      concatAll ds := by
  have h := readUpstream_deltaLines dbgDump dbgEvents ds initState rfl
  exact ⟨h, by rw [h, concatAll_filter_ne]⟩

/-- C3 (confirmed).  In `handleChat` (part_000), a `POST /api/chat` whose
body fails to parse as JSON returns the synchronous
`jsonResponse(\x7berror: "Invalid JSON body"\x7d, 400)` and no SSE stream is
opened, whatever the mode, model and upstream would have been. -/
theorem c3_invalid_json (debugJson : Bool) (model : String) (debugUp : Nat × String)
    (streamUp : PUpResp) :
    handleChat none debugJson model debugUp streamUp = .jsonR 400 "Invalid JSON body" ∧
    (handleChat none debugJson model debugUp streamUp).isStream = false :=
  ⟨rfl, rfl⟩

/-- C4 (corrected).  The claim that only genuine text deltas set the
"first text received" flag is false: the tool-progress hint goes through
`pushDelta` (index.ts line 366), so processing a single
`tool_call.started` event — with no text delta anywhere in the input —
already sets `gotFirstText`, and the emitted frame is the constant
searching hint, not upstream text. -/
theorem c4_counterexample :
    (readUpstream false false initState [toolStartLine]).1.gotFirstText = true ∧
    (readUpstream false false initState [toolStartLine]).2 = [deltaFrame searchNotice] := by
  constructor <;> decide

/-- C4 (amended).  `gotFirstText` is set exactly when some `pushDelta`
chunk (genuine delta or tool-progress/debug hint alike) has been emitted;
the heartbeat tick never touches it.  When the watchdog fires with the flag
still unset, the streaming call is aborted and the fallback request is
non-streaming with no tools and no sampling fields, and a successful
fallback response is forwarded as one chunk followed by the terminal
stop/[DONE] pair; when the flag is set the watchdog does nothing. -/
theorem c4_amended :
    (∀ (dbgDump dbgEvents : Bool) (ls : List RawLine),
        (readUpstream dbgDump dbgEvents initState ls).1.gotFirstText =
          (readUpstream dbgDump dbgEvents initState ls).2.any isCmplChunk) ∧
    (∀ c : Cfg, (fallbackPayload c).stream = false ∧ (fallbackPayload c).tools = none ∧
        (fallbackPayload c).tool_choice = none ∧ (fallbackPayload c).temperature = none ∧
        (fallbackPayload c).top_p = none ∧ (fallbackPayload c).reasoning = none) ∧
    (∀ r : FbResp, firstPacketFire true r = (false, [])) ∧
    (∀ r : FbResp, r.ok = true → r.text ≠ "" →
        firstPacketFire false r = (true, deltaFrame (fallbackOut r) :: pushStopFrames)) ∧
    (∀ s : RUState, (heartbeatTick s).1.gotFirstText = s.gotFirstText) := by
  refine ⟨?_, ?_, ?_, ?_, ?_⟩
  · intro dbgDump dbgEvents ls
    rw [readUpstream_got dbgDump dbgEvents ls initState]
    rfl
  · intro c
    exact ⟨rfl, rfl, rfl, rfl, rfl, rfl⟩
  · intro r
    rfl
  · intro r hok htext
    unfold firstPacketFire
    rw [if_neg (by simp)]
    rw [if_neg (by simp [hok, htext])]
  · intro s
    rfl

/-- Witness for `c4_amended` at concrete inputs: one tool-start line, and a
successful fallback response with body `"4"`. -/
theorem c4_amended_witness :
    (readUpstream false false initState [toolStartLine]).1.gotFirstText =
      (readUpstream false false initState [toolStartLine]).2.any isCmplChunk ∧
    firstPacketFire false { ok := true, text := "4", parsedOut := some "4" } =
      (true, deltaFrame "4" :: pushStopFrames) := by
  constructor
  · exact c4_amended.1 false false [toolStartLine]
  · have h := c4_amended.2.2.2.1 { ok := true, text := "4", parsedOut := some "4" }
      rfl (by decide)
    exact h

/-- C5 (corrected).  The claim that the 400-retry "preserves all other
fields" of the original payload is false: the rebuilt payload keeps only
`model`, `input`, `stream`, `max_output_tokens` and `seed`, so when the
base payload carried tools, the second request body has dropped them.
Here: tools enabled for `"gpt-4o"`, first response
`400 "Unsupported parameter: 'temperature'"`. -/
theorem c5_counterexample :
    (basePayload cxToolsCfg).tools = some "web_search_preview_2025_03_11" ∧
    afterFirst cxToolsCfg 400 "Unsupported parameter: 'temperature'" =
      .retryOnce (retryPayload cxToolsCfg) ∧
    (retryPayload cxToolsCfg).tools ≠ (basePayload cxToolsCfg).tools := by
  refine ⟨by decide, by decide, by decide⟩

/-- C5 (amended).  A non-OK first response matching a known
unsupported-field pattern (tools / temperature-top_p / reasoning.effort)
is retried exactly once with a payload that preserves `model`, `input`,
`stream`, `max_output_tokens` and `seed` and omits `temperature`, `top_p`,
`tools`, `tool_choice` and `reasoning`; a non-OK response matching no
pattern is not retried and becomes an error chunk message; never more than
two request bodies are issued. -/
theorem c5_amended :
    (∀ (c : Cfg) (status : Nat) (body : String),
        upstreamOk status = false →
        (toolsProblem status (jsToLower body) || badSampling status (jsToLower body) ||
          badReasoning status (jsToLower body)) = true →
        afterFirst c status body = .retryOnce (retryPayload c) ∧
        (retryPayload c).model = (basePayload c).model ∧
        (retryPayload c).input = (basePayload c).input ∧
        (retryPayload c).stream = (basePayload c).stream ∧
        (retryPayload c).max_output_tokens = (basePayload c).max_output_tokens ∧
        (retryPayload c).seed = (basePayload c).seed ∧
        (retryPayload c).temperature = none ∧ (retryPayload c).top_p = none ∧
        (retryPayload c).tools = none ∧ (retryPayload c).tool_choice = none ∧
        (retryPayload c).reasoning = none ∧
        issuedPayloads c status body = [basePayload c, retryPayload c]) ∧
    (∀ (c : Cfg) (status : Nat) (body : String),
        upstreamOk status = false →
        (toolsProblem status (jsToLower body) || badSampling status (jsToLower body) ||
          badReasoning status (jsToLower body)) = false →
        afterFirst c status body =
          .errorOut ("⚠️ Upstream " ++ toString status ++ ": " ++ sliceStr body 800) ∧
        issuedPayloads c status body = [basePayload c]) ∧
    (∀ (c : Cfg) (status : Nat) (body : String),
        (issuedPayloads c status body).length ≤ 2) := by
  refine ⟨?_, ?_, ?_⟩
  · intro c status body hok hpat
    have hd : afterFirst c status body = .retryOnce (retryPayload c) := by
      unfold afterFirst
      rw [if_neg (by simp [hok]), if_pos (by simpa using hpat)]
    refine ⟨hd, rfl, rfl, rfl, rfl, rfl, rfl, rfl, rfl, rfl, rfl, ?_⟩
    unfold issuedPayloads
    rw [hd]
  · intro c status body hok hpat
    have hd : afterFirst c status body =
        .errorOut ("⚠️ Upstream " ++ toString status ++ ": " ++ sliceStr body 800) := by
      unfold afterFirst
      rw [if_neg (by simp [hok]), if_neg (by simp [hpat])]
    refine ⟨hd, ?_⟩
    unfold issuedPayloads
    rw [hd]
  · intro c status body
    unfold issuedPayloads
    cases afterFirst c status body <;> simp

/-- Witness for `c5_amended`: a 400 body matching the sampling pattern is
retried with the stripped payload; a 500 body is surfaced unretried. -/
theorem c5_amended_witness :
    afterFirst cxToolsCfg 400 "Unsupported parameter: 'temperature'" =
      .retryOnce (retryPayload cxToolsCfg) ∧
    issuedPayloads cxToolsCfg 400 "Unsupported parameter: 'temperature'" =
      [basePayload cxToolsCfg, retryPayload cxToolsCfg] ∧
    afterFirst cxToolsCfg 500 "boom" =
      .errorOut ("⚠️ Upstream " ++ toString 500 ++ ": " ++ sliceStr "boom" 800) := by
  have h1 := c5_amended.1 cxToolsCfg 400 "Unsupported parameter: 'temperature'"
    (by decide) (by decide)
  have h2 := c5_amended.2.1 cxToolsCfg 500 "boom" (by decide) (by decide)
  exact ⟨h1.1, h1.2.2.2.2.2.2.2.2.2.2.2, h2.1⟩

/-- C6 (corrected).  The claim that only the first tool-call start event
emits a searching notice is false: the started/created branch
(index.ts lines 361-368) has no dedup flag, so every start event emits the
notice — two start events produce two searching chunks. -/
theorem c6_counterexample :
    ¬ searchingCount (readAndFinalize false false [toolStartLine, toolStartLine]) ≤ 1 := by
  decide

/-- C6 (amended).  Every tool-call started/created event emits exactly one
user-visible searching notice: `n` start events produce exactly `n`
searching chunks — duplicates are not suppressed. -/
theorem c6_amended (dbgDump dbgEvents : Bool) (n : Nat) :
    searchingCount
      (readUpstream dbgDump dbgEvents initState (List.replicate n toolStartLine)).2 = n :=
  readUpstream_toolStarts dbgDump dbgEvents n initState rfl rfl

/-- C7 (confirmed).  The `pull` decoder's end-of-stream flush (part_000
lines 882-901): when the stream ends while the buffer still holds a
trailing `data:` line with no blank-line terminator, the flush parses that
payload and emits its content — appended to the accumulated text, with the
first-frame leading-whitespace strip — as a final `response` frame followed
by the `done: true` frame, instead of dropping the buffered remainder. -/
theorem c7_eos_flush (extractContent : List Char → Option (List Char))
    (st : PullState) (c : List Char)
    (hdata : dataTagChars.isPrefixOf (trimL st.buffer) = true)
    (hnd : trimL ((trimL st.buffer).drop 5) ≠ doneLitChars)
    (hex : extractContent (trimL ((trimL st.buffer).drop 5)) = some c)
    (hc : trimL c ≠ []) :
    pullFinish extractContent st =
      [OutMsg.resp (if st.sentAny then st.acc ++ c else (st.acc ++ c).dropWhile wsChar),
       OutMsg.finished] := by
  simp only [pullFinish]
  rw [hdata]
  rw [if_pos rfl, if_pos hnd, hex]
  simp only
  rw [if_pos hc]
  have hcne : c ≠ [] := ne_nil_of_trimL c hc
  have hacc : st.acc ++ c ≠ [] := fun hh => hcne (List.append_eq_nil.mp hh).2
  have hdw : (st.acc ++ c).dropWhile wsChar ≠ [] := dropWhile_ws_append_ne_nil st.acc c hc
  have h1 : (st.acc ++ c).isEmpty = false := by
    rw [List.isEmpty_eq_false]
    exact hacc
  have h2 : ((st.acc ++ c).dropWhile wsChar).isEmpty = false := by
    rw [List.isEmpty_eq_false]
    exact hdw
  cases hs : st.sentAny with
  | false => simp [h1, h2]
  | true => simp [h1, h2]

/-- Witness for `c7_eos_flush`: buffer `"data: x"` (no terminator), empty
accumulator, extraction yielding `"hi"` — the flush emits `"hi"` then
`done`. -/
theorem c7_eos_flush_witness :
    pullFinish (fun _ => some "hi".data)
        { buffer := "data: x".data, acc := [], sentAny := false } =
      [OutMsg.resp "hi".data, OutMsg.finished] := by
  have h := c7_eos_flush (fun _ => some "hi".data)
    { buffer := "data: x".data, acc := [], sentAny := false } "hi".data
    (by decide) (by decide) rfl (by decide)
  simpa using h

/-- C8 (confirmed).  The line decoder of `readUpstream` (buffer carry-over,
index.ts lines 294-300) is invariant under re-chunking of the byte stream:
feeding any list of byte deliveries through the buffering loop yields
exactly the decoded lines (and final remainder) of their concatenation; in
particular a frame split across two deliveries decodes identically to the
frame delivered whole, never as two malformed pieces. -/
theorem c8_rechunk_invariant :
    (∀ chunks : List (List Char), feedAll [] chunks = extractLines chunks.flatten) ∧
    (∀ a b : List Char, feedAll [] [a, b] = extractLines (a ++ b)) := by
  have key : ∀ chunks : List (List Char), feedAll [] chunks = extractLines chunks.flatten :=
    fun chunks => feedAll_spec chunks [] (by simp)
  refine ⟨key, fun a b => ?_⟩
  have h := key [a, b]
  simpa using h

/-- C9 (confirmed).  In every base payload, the sampling fields
(`temperature`, `top_p`) are present iff the model name does not match the
"thinking" pattern, the reasoning field is present iff it does, and the
two groups are never both present and never both absent. -/
theorem c9_sampling_reasoning (c : Cfg) :
    ((basePayload c).temperature.isSome = !isThinking c.model) ∧
    ((basePayload c).top_p.isSome = !isThinking c.model) ∧
    ((basePayload c).reasoning.isSome = isThinking c.model) ∧
    (((basePayload c).temperature.isSome && (basePayload c).reasoning.isSome) = false) ∧
    (((basePayload c).temperature.isSome || (basePayload c).reasoning.isSome) = true) := by
  cases h : isThinking c.model <;> simp [basePayload, h]

/-- C10 (confirmed).  On the SSE path, the very first thing on the trace is
the `cmpl-start` chunk — role `"assistant"`, no content, `finish_reason`
null — and the only action preceding the first upstream request is that
start chunk, for every configuration and upstream behaviour. -/
theorem c10_start_chunk_first (dbgDump dbgEvents : Bool) (c : Cfg) (first second : UpResp) :
    (∃ rest, chatTrace dbgDump dbgEvents c first second =
      Action.emit startFrame :: Action.request (basePayload c) :: rest) ∧
    startFrame = OutFrame.chunk "cmpl-start" none (some "assistant") none :=
  ⟨⟨_, rfl⟩, rfl⟩

end LlmProxy
